import Mathlib

/-!
Shallow embedding of `src/backend/app/main.py` (SGL Enterprise API V7.0),
covering the quote computation (`calculate_quote`), the availability check
(`check_availability`) and the booking flow (`book_trip`).

Modelling conventions:
* Python `float` is modelled as `ℚ` (exact arithmetic), Python `int` as `ℤ`.
* `datetime` values are modelled as `ℚ`, measured in days; `timedelta(days=n)`
  is addition of `n`.  The source stores `data_inicio`/`data_fim` in the trip
  dict as ISO strings and parses them back with `datetime.fromisoformat`; that
  round trip is the identity, so the model stores the `ℚ` value directly.
* The Python builtin `round(x, n)` is modelled as exact decimal rounding to
  `n` digits with ties to even (`pyRound`).
* The external collaborators (Nominatim geocoder, OSRM router, great-circle
  distance) are passed to `calculate_quote` as function parameters: the
  geocoder returns `none` exactly when the call `geolocator.geocode`
  returns a falsy location, and the router returns `none` exactly when
  `get_road_route` returns `None` (any HTTP/parse failure).
* `HTTPException(status, detail)` raised by an endpoint is modelled as the
  error value `ApiErr.http status detail`; the 409 conflict raised by
  `book_trip` is modelled as `ApiErr.conflict resource_type t_start t_end`,
  which carries exactly the data interpolated into the message of the source,
  `"Conflito: {type} já reservado de {t_start} até {t_end}"` (the
  `strftime` presentation of the two timestamps is not modelled).
* `check_availability` returns `(False, msg)` on conflict and
  `(True, "Disponível")` otherwise; since `msg` is determined by the
  bounds of the conflicting trip, the model returns `some (t_start, t_end)`
  for `(False, msg)` and `none` for `(True, "Disponível")`.
* Mutation of the global in-memory "database" is modelled by explicit state
  passing: `book_trip` maps a `State` to the post-call `State` together with
  the returned value or raised error.  The `uuid` fragment used as a fresh
  trip id is passed in as the argument `fresh_id`.
* The source passes a `custo_fixo_diario` keyword to `FinancialBreakdown`,
  but that class declares no such field, so pydantic drops it; the model
  therefore omits it.
-/

/-- Decimal rounding with ties to even, the rounding mode of the Python
builtin `round` (the source rounds monetary/distance outputs to 2 digits
and hours to 1 digit). -/
def roundHalfEven (x : ℚ) : ℤ :=
  let f := ⌊x⌋
  let r := x - f
  if r < 1/2 then f
  else if 1/2 < r then f + 1
  else if f % 2 = 0 then f else f + 1

/-- Model of the Python builtin `round(x, ndigits)`. -/
def pyRound (x : ℚ) (ndigits : ℕ) : ℚ :=
  let m : ℚ := 10 ^ ndigits
  (roundHalfEven (x * m) : ℚ) / m

/-- The `Settings` object (env-configurable cost parameters), lines 23-33. -/
structure Settings where
  PRECO_COMBUSTIVEL : ℚ
  SALARIO_MOTORISTA : ℚ
  VALOR_DIARIA_PADRAO : ℚ
  DIAS_UTEIS : ℤ
  MARGEM_LUCRO : ℚ
  GEOPY_USER_AGENT : String
  OSRM_API_URL : String
deriving Repr, DecidableEq

/-- The module-level `settings = Settings()` with the declared defaults. -/
def settings : Settings :=
  { PRECO_COMBUSTIVEL := 689/100
    SALARIO_MOTORISTA := 2500
    VALOR_DIARIA_PADRAO := 150
    DIAS_UTEIS := 22
    MARGEM_LUCRO := 3/10
    GEOPY_USER_AGENT := "sgl_enterprise_v7_manager"
    OSRM_API_URL := "http://router.project-osrm.org/route/v1/driving" }

/-- A vehicle record of `db_trucks` (fields of `TruckResponse`). -/
structure Truck where
  id : String
  nome : String
  consumo : ℚ
  tanque : ℤ
  placa : String
  status : String
deriving Repr, DecidableEq

/-- A driver record of `db_drivers` (fields of `DriverResponse`). -/
structure Driver where
  id : String
  nome : String
  cnh : String
  foto_url : Option String
  status : String
deriving Repr, DecidableEq

/-- The `TripCreate` request schema (lines 114-124). -/
structure TripCreate where
  origem : String
  destino : String
  distancia_km : ℚ
  preco_final : ℚ
  lucro : ℚ
  custo_motorista : ℚ
  veiculo_id : String
  motorista_id : String
  data_inicio : ℚ
  paradas_previstas : ℤ
deriving Repr, DecidableEq

/-- A stored trip record: `trip.dict()` plus the fields added by
`book_trip` (`id`, `status`, `data_inicio`/`data_fim` as stored
timestamps, `dias_duracao`). -/
structure Trip where
  id : String
  origem : String
  destino : String
  distancia_km : ℚ
  preco_final : ℚ
  lucro : ℚ
  custo_motorista : ℚ
  veiculo_id : String
  motorista_id : String
  data_inicio : ℚ
  data_fim : ℚ
  paradas_previstas : ℤ
  status : String
  dias_duracao : ℤ
deriving Repr, DecidableEq

/-- The in-memory database: `db_trucks`, `db_drivers`, `db_trips`.
The dicts are modelled as association lists keyed by id. -/
structure State where
  db_trucks : List (String × Truck)
  db_drivers : List (String × Driver)
  db_trips : List Trip
deriving Repr, DecidableEq

/-- Initial `db_trucks` (lines 37-40). -/
def db_trucks : List (String × Truck) :=
  [("vuc-01",
    { id := "vuc-01", nome := "VUC (Veículo Urbano)", consumo := 6,
      tanque := 150, placa := "ABC-1234", status := "Disponível" }),
   ("carreta-01",
    { id := "carreta-01", nome := "Carreta LS", consumo := 5/2,
      tanque := 600, placa := "GHI-9012", status := "Disponível" })]

/-- Initial `db_drivers` (lines 42-45). -/
def db_drivers : List (String × Driver) :=
  [("mot-01",
    { id := "mot-01", nome := "Carlos Silva", cnh := "1234567890",
      foto_url := some "https://ui-avatars.com/api/?name=Carlos+Silva&background=0D8ABC&color=fff",
      status := "Disponível" }),
   ("mot-02",
    { id := "mot-02", nome := "Ana Pereira", cnh := "0987654321",
      foto_url := some "https://ui-avatars.com/api/?name=Ana+Pereira&background=random",
      status := "Disponível" })]

/-- The process-start state: seeded catalogs, `db_trips = []` (line 47). -/
def initState : State :=
  { db_trucks := db_trucks, db_drivers := db_drivers, db_trips := [] }

/-- Errors surfaced by the endpoints.  `http s d` is
`HTTPException(status_code=s, detail=d)`; `conflict rt ts te` is the 409
raised by `book_trip`, carrying the data of the availability message. -/
inductive ApiErr where
  | conflict (resource_type : String) (t_start t_end : ℚ)
  | http (status : ℕ) (detail : String)
deriving Repr, DecidableEq

/-- Line 170: the id a trip is matched on, selected by `resource_type` —
the vehicle id when `resource_type == "veiculo"`, the driver id otherwise. -/
def tripResourceId (resource_type : String) (t : Trip) : String :=
  if resource_type = "veiculo" then t.veiculo_id else t.motorista_id

/-- Lines 164-176: `check_availability(resource_id, start, end, resource_type)`,
scanning `trips` in storage order.  Returns `some (t_start, t_end)` where the
source returns `(False, msg)` — the two times are the data interpolated into
`msg` — and `none` where the source returns `(True, "Disponível")`. -/
def check_availability (resource_id : String) (start fim : ℚ)
    (resource_type : String) : List Trip → Option (ℚ × ℚ)
  | [] => none
  | trip :: rest =>
    if tripResourceId resource_type trip = resource_id then
      if start < trip.data_fim ∧ fim > trip.data_inicio then
        some (trip.data_inicio, trip.data_fim)
      else check_availability resource_id start fim resource_type rest
    else check_availability resource_id start fim resource_type rest

/-- The value returned by `book_trip` on success (line 284). -/
structure BookResponse where
  msg : String
  id : String
  termino_estimado : ℚ
deriving Repr, DecidableEq

/-- Lines 258-260 of `book_trip`: `dias_necessarios`, the booking duration in
days — `math.ceil((distancia_km / 70) / 8)`, clamped below by 1. -/
def dias_necessarios (distancia_km : ℚ) : ℤ :=
  let horas_totais := distancia_km / 70
  let dias : ℤ := ⌈horas_totais / 8⌉
  if dias < 1 then 1 else dias

/-- Line 262 of `book_trip`:
`data_fim = trip.data_inicio + timedelta(days=dias_necessarios)`. -/
def booking_data_fim (trip : TripCreate) : ℚ :=
  trip.data_inicio + (dias_necessarios trip.distancia_km : ℚ)

/-- Lines 272-277 of `book_trip`: the record appended to `db_trips` —
`trip.dict()` plus the generated id, the `"Agendada"` status, the stored
window and the duration. -/
def trip_record (trip : TripCreate) (fresh_id : String) : Trip :=
  { id := fresh_id, origem := trip.origem, destino := trip.destino,
    distancia_km := trip.distancia_km, preco_final := trip.preco_final,
    lucro := trip.lucro, custo_motorista := trip.custo_motorista,
    veiculo_id := trip.veiculo_id, motorista_id := trip.motorista_id,
    data_inicio := trip.data_inicio, data_fim := booking_data_fim trip,
    paradas_previstas := trip.paradas_previstas,
    status := "Agendada", dias_duracao := dias_necessarios trip.distancia_km }

/-- Lines 255-284: `book_trip`, in state-passing form — the returned state
is the database after the call (unchanged when an exception is raised,
since the source raises before any write). `fresh_id` stands for
`str(uuid.uuid4())[:8]`. -/
def book_trip (trip : TripCreate) (fresh_id : String) (s : State) :
    State × Except ApiErr BookResponse :=
  let data_fim := booking_data_fim trip
  match check_availability trip.veiculo_id trip.data_inicio data_fim "veiculo" s.db_trips with
  | some (ts, te) => (s, .error (.conflict "veiculo" ts te))
  | none =>
    match check_availability trip.motorista_id trip.data_inicio data_fim "motorista" s.db_trips with
    | some (ts, te) => (s, .error (.conflict "motorista" ts te))
    | none =>
      let trucks' :=
        if (s.db_trucks.lookup trip.veiculo_id).isSome then
          s.db_trucks.map (fun kv =>
            if kv.1 = trip.veiculo_id then (kv.1, { kv.2 with status := "Agendado" }) else kv)
        else s.db_trucks
      let drivers' :=
        if (s.db_drivers.lookup trip.motorista_id).isSome then
          s.db_drivers.map (fun kv =>
            if kv.1 = trip.motorista_id then (kv.1, { kv.2 with status := "Agendado" }) else kv)
        else s.db_drivers
      ({ db_trucks := trucks', db_drivers := drivers',
         db_trips := s.db_trips ++ [trip_record trip fresh_id] },
       .ok { msg := "Viagem reservada!", id := fresh_id, termino_estimado := data_fim })

/-- The `RouteRequest` payload of `/api/v1/quote` (lines 81-87). -/
structure RouteRequest where
  origem : String
  destino : String
  veiculo_id : String
  ida_e_volta : Bool
  preco_diesel_personalizado : Option ℚ
  valor_diaria_personalizado : Option ℚ
deriving Repr, DecidableEq

/-- The `FinancialBreakdown` schema (lines 89-100). -/
structure FinancialBreakdown where
  custo_combustivel : ℚ
  litros_combustivel : ℚ
  paradas_abastecimento : ℤ
  custo_motorista_salario : ℚ
  custo_motorista_diarias : ℚ
  custo_motorista_total : ℚ
  custo_operacional_total : ℚ
  lucro_estimado : ℚ
deriving Repr, DecidableEq

/-- The `RouteResponse` schema (lines 102-111). -/
structure RouteResponse where
  distancia_km : ℚ
  tempo_estimado_horas : ℚ
  dias_viagem_estimados : ℤ
  preco_final_frete : ℚ
  detalhes_financeiros : FinancialBreakdown
  route_geometry : Option (List (List ℚ))
  coords_origem : ℚ × ℚ
  coords_destino : ℚ × ℚ
  veiculo_info : Truck
deriving Repr, DecidableEq

/-- Lines 311-356 of `calculate_quote`: the arithmetic from the doubling of
`distancia_km`/`tempo_horas` through the construction of the response,
given the distance/duration/geometry already selected from the router or
the great-circle fallback.  Note the fuel-price override goes through
the Python `or` idiom (line 321): a falsy override — `None` or `0.0` — falls back
to the default, while the per-diem override (line 322) is tested with
`is not None`. -/
def quoteCore (st : Settings) (distancia0 tempo0 : ℚ) (ida_e_volta : Bool)
    (vehicle_data : Truck)
    (preco_diesel_personalizado valor_diaria_personalizado : Option ℚ)
    (geometry : Option (List (List ℚ))) (c_origem c_destino : ℚ × ℚ) :
    RouteResponse :=
  let distancia_km := if ida_e_volta then distancia0 * 2 else distancia0
  let tempo_horas := if ida_e_volta then tempo0 * 2 else tempo0
  let dias_viagem : ℤ := max 1 ⌈tempo_horas / 8⌉
  let litros_total := distancia_km / vehicle_data.consumo
  let tanque : ℚ := (vehicle_data.tanque : ℚ)
  let paradas : ℤ := if litros_total > tanque then ⌈(litros_total - tanque) / tanque⌉ else 0
  let preco_diesel :=
    match preco_diesel_personalizado with
    | some p => if p = 0 then st.PRECO_COMBUSTIVEL else p
    | none => st.PRECO_COMBUSTIVEL
  let valor_diaria :=
    match valor_diaria_personalizado with
    | some v => v
    | none => st.VALOR_DIARIA_PADRAO
  let custo_combustivel := litros_total * preco_diesel
  let custo_salario_proporcional := st.SALARIO_MOTORISTA / (st.DIAS_UTEIS : ℚ) * (dias_viagem : ℚ)
  let custo_diarias := valor_diaria * (dias_viagem : ℚ)
  let custo_motorista_total := custo_salario_proporcional + custo_diarias
  let custo_total := custo_combustivel + custo_motorista_total
  let preco_venda := custo_total / (1 - st.MARGEM_LUCRO)
  let lucro := preco_venda - custo_total
  { distancia_km := pyRound distancia_km 2
    tempo_estimado_horas := pyRound tempo_horas 1
    dias_viagem_estimados := dias_viagem
    preco_final_frete := pyRound preco_venda 2
    detalhes_financeiros :=
      { custo_combustivel := pyRound custo_combustivel 2
        litros_combustivel := pyRound litros_total 2
        paradas_abastecimento := paradas
        custo_motorista_salario := pyRound custo_salario_proporcional 2
        custo_motorista_diarias := pyRound custo_diarias 2
        custo_motorista_total := pyRound custo_motorista_total 2
        custo_operacional_total := pyRound custo_total 2
        lucro_estimado := pyRound lucro 2 }
    route_geometry := geometry
    coords_origem := c_origem
    coords_destino := c_destino
    veiculo_info := vehicle_data }

/-- Result of `RoutingService.get_road_route` when the OSRM call succeeds. -/
structure RouteData where
  dist_km : ℚ
  duration_h : ℚ
  geometry : List (List ℚ)
deriving Repr, DecidableEq

/-- Model of `str(e)` for a starlette `HTTPException` — its dunder str
renders the status code, a colon and the detail; this is the string the
`except` clause of `calculate_quote` puts into the 500 it re-raises. -/
def strOfHTTPException (status : ℕ) (detail : String) : String :=
  toString status ++ ": " ++ detail

/-- Lines 287-356: `calculate_quote`.  `geocode` models
`GeoService.get_coords` up to its not-found check: `geocode city = none`
iff `geolocator.geocode(city)` is falsy, in which case `get_coords`
raises `HTTPException(404, "Localização não encontrada: " + city)`;
`calculate_quote` wraps both geocoding calls in `try/except Exception`
and re-raises `HTTPException(500, str(e))`.  `road_route` models
`RoutingService.get_road_route` (`none` = unavailable), and
`great_circle_km` models `great_circle(a, b).km`. -/
def calculate_quote (st : Settings) (trucks : List (String × Truck))
    (geocode : String → Option (ℚ × ℚ))
    (road_route : ℚ × ℚ → ℚ × ℚ → Option RouteData)
    (great_circle_km : ℚ × ℚ → ℚ × ℚ → ℚ)
    (payload : RouteRequest) : Except ApiErr RouteResponse :=
  match trucks.lookup payload.veiculo_id with
  | none => .error (.http 400 "Veículo não encontrado.")
  | some vehicle_data =>
    match geocode payload.origem with
    | none => .error (.http 500
        (strOfHTTPException 404 ("Localização não encontrada: " ++ payload.origem)))
    | some c_origem =>
      match geocode payload.destino with
      | none => .error (.http 500
          (strOfHTTPException 404 ("Localização não encontrada: " ++ payload.destino)))
      | some c_destino =>
        let sel : ℚ × ℚ × Option (List (List ℚ)) :=
          match road_route c_origem c_destino with
          | some route_data => (route_data.dist_km, route_data.duration_h, some route_data.geometry)
          | none =>
            let d := great_circle_km c_origem c_destino * (12/10)
            (d, d / 70, none)
        .ok (quoteCore st sel.1 sel.2.1 payload.ida_e_volta vehicle_data
              payload.preco_diesel_personalizado payload.valor_diaria_personalizado
              sel.2.2 c_origem c_destino)

/-!  Specification-side definitions, for comparison against the embedding. -/

/-- Spec translation (section 4.2): the half-open overlap test between the
proposed window `[start, fim)` and the stored window of `t`. -/
def conflictsWith (resource_id : String) (start fim : ℚ) (resource_type : String)
    (t : Trip) : Prop :=
  tripResourceId resource_type t = resource_id ∧ start < t.data_fim ∧ fim > t.data_inicio

instance (resource_id : String) (start fim : ℚ) (resource_type : String) (t : Trip) :
    Decidable (conflictsWith resource_id start fim resource_type t) := by
  unfold conflictsWith; infer_instance

/-- Spec translation (section 4.2): the first trip of `trips`, in storage
(insertion) order, that matches the resource and overlaps the proposed
window, reported by the bounds of its stored window. -/
def specFirstConflict (resource_id : String) (start fim : ℚ) (resource_type : String)
    (trips : List Trip) : Option (ℚ × ℚ) :=
  (trips.find? fun t => decide (conflictsWith resource_id start fim resource_type t)).map
    fun t => (t.data_inicio, t.data_fim)

/-- Spec translation (section 3, TripBooking invariant): two stored trips
with overlapping half-open `[start, end)` windows. -/
def overlaps (t1 t2 : Trip) : Prop :=
  t1.data_inicio < t2.data_fim ∧ t2.data_inicio < t1.data_fim

/-- Trips that share the resource selected by `sel` never overlap. -/
def sameResourceNoOverlap (sel : Trip → String) (t1 t2 : Trip) : Prop :=
  sel t1 = sel t2 → ¬ overlaps t1 t2

/-- Spec translation (section 3): for every vehicle id and every driver id,
no two stored trips referencing that id have overlapping windows. -/
def noDoubleBooking (trips : List Trip) : Prop :=
  trips.Pairwise (sameResourceNoOverlap Trip.veiculo_id) ∧
  trips.Pairwise (sameResourceNoOverlap Trip.motorista_id)

/-- States reachable from a state with an empty trip list by a sequence of
`book_trip` calls (failed calls leave the state unchanged, so only the
post-state of each call matters). -/
inductive Reachable : State → Prop where
  | init (trucks : List (String × Truck)) (drivers : List (String × Driver)) :
      Reachable { db_trucks := trucks, db_drivers := drivers, db_trips := [] }
  | step (trip : TripCreate) (fresh_id : String) (s : State) :
      Reachable s → Reachable (book_trip trip fresh_id s).fst

/-- A concrete booking request used to instantiate the reachability and
booking theorems. -/
def demoBooking : TripCreate :=
  { origem := "Sao Paulo", destino := "Curitiba", distancia_km := 400,
    preco_final := 5000, lucro := 1500, custo_motorista := 500,
    veiculo_id := "vuc-01", motorista_id := "mot-01",
    data_inicio := 20000, paradas_previstas := 0 }

/-- Spec translation (section 4.1, step 4): `refuelStops` as the spec words
it — `0` when `fuelLiters <= tank`, `ceil((fuelLiters - tank) / tank)`
otherwise. -/
def specRefuelStops (fuelLiters : ℚ) (tank : ℤ) : ℤ :=
  if fuelLiters ≤ (tank : ℚ) then 0 else ⌈(fuelLiters - tank) / tank⌉

/-- Amended override semantics for the fuel price: the override is used when
provided and nonzero; a missing or zero override falls back to the default
(the Python `or` treats `0.0` as falsy). -/
def specFuelPrice (override : Option ℚ) (fallback : ℚ) : ℚ :=
  match override with
  | some p => if p = 0 then fallback else p
  | none => fallback

/-- Override semantics for the per-diem rate: the override is used whenever
provided, including `0` (the source tests `is not None`). -/
def specPerDiem (override : Option ℚ) (fallback : ℚ) : ℚ :=
  override.getD fallback

/-- The HTTP status a quote outcome surfaces: `none` for success, the
status code of the raised `HTTPException` otherwise. -/
def exceptStatus : Except ApiErr RouteResponse → Option ℕ
  | .ok _ => none
  | .error (.http s _) => some s
  | .error (.conflict _ _ _) => some 409

/-- A vehicle with consumption 1 and tank 150, so that `fuelLiters`
equals the requested distance. -/
def testTruck : Truck :=
  { id := "test-01", nome := "Teste", consumo := 1, tanque := 150,
    placa := "TST-0001", status := "Disponível" }

/-- A configuration whose margin fraction is `3/2 ≥ 1` (reachable, since
`MARGEM_LUCRO` is env-configurable), with the other cost parameters set so
the cost total of a 100 km request is 100. -/
def badSettings : Settings :=
  { PRECO_COMBUSTIVEL := 1, SALARIO_MOTORISTA := 0, VALOR_DIARIA_PADRAO := 0,
    DIAS_UTEIS := 22, MARGEM_LUCRO := 3/2,
    GEOPY_USER_AGENT := "", OSRM_API_URL := "" }

/-- A concrete quote request for `testTruck`. -/
def demoPayload : RouteRequest :=
  { origem := "Sao Paulo", destino := "Curitiba", veiculo_id := "test-01",
    ida_e_volta := false, preco_diesel_personalizado := none,
    valor_diaria_personalizado := none }

/-- A stored trip for `vuc-01` / `mot-01` with window `[5, 7)`. -/
def demoTripA : Trip :=
  { id := "a1", origem := "X", destino := "Y", distancia_km := 100,
    preco_final := 0, lucro := 0, custo_motorista := 0,
    veiculo_id := "vuc-01", motorista_id := "mot-01",
    data_inicio := 5, data_fim := 7, paradas_previstas := 0,
    status := "Agendada", dias_duracao := 2 }

/-- A stored trip for `vuc-01` / `mot-01` with window `[1, 3)`. -/
def demoTripB : Trip :=
  { id := "b1", origem := "X", destino := "Y", distancia_km := 100,
    preco_final := 0, lucro := 0, custo_motorista := 0,
    veiculo_id := "vuc-01", motorista_id := "mot-01",
    data_inicio := 1, data_fim := 3, paradas_previstas := 0,
    status := "Agendada", dias_duracao := 2 }

/-- A trip list in which both entries conflict with the window `[0, 10)`
and the later window is stored first. -/
def demoTrips : List Trip := [demoTripA, demoTripB]

/-- A stored trip with window `[0, 2)`, touching a proposed window that
starts at 2. -/
def demoTripBoundary : Trip :=
  { id := "c1", origem := "X", destino := "Y", distancia_km := 100,
    preco_final := 0, lucro := 0, custo_motorista := 0,
    veiculo_id := "vuc-01", motorista_id := "mot-01",
    data_inicio := 0, data_fim := 2, paradas_previstas := 0,
    status := "Agendada", dias_duracao := 2 }

/-- A state holding one stored trip (`demoTripA`, window `[5, 7)`). -/
def conflictState : State :=
  { db_trucks := db_trucks, db_drivers := db_drivers, db_trips := [demoTripA] }

/-- A booking request overlapping `demoTripA` on the vehicle: derived
window `[6, 7)`. -/
def demoBooking2 : TripCreate := { demoBooking with data_inicio := 6 }

/-- A booking request whose vehicle and driver ids are in no catalog. -/
def ghostBooking : TripCreate :=
  { demoBooking with veiculo_id := "ghost-truck", motorista_id := "ghost-driver" }

lemma check_availability_eq_none_iff (resource_id : String) (start fim : ℚ)
    (resource_type : String) (trips : List Trip) :
    check_availability resource_id start fim resource_type trips = none ↔
      ∀ t ∈ trips, tripResourceId resource_type t = resource_id →
        ¬ (start < t.data_fim ∧ fim > t.data_inicio) := by
  induction trips with
  | nil => simp [check_availability]
  | cons t rest ih =>
    by_cases h1 : tripResourceId resource_type t = resource_id
    · by_cases h2 : start < t.data_fim ∧ fim > t.data_inicio
      · refine iff_of_false (by simp [check_availability, h1, h2]) ?_
        intro H
        exact H t (List.mem_cons_self t rest) h1 h2
      · have hstep : check_availability resource_id start fim resource_type (t :: rest) =
            check_availability resource_id start fim resource_type rest := by
          simp [check_availability, h1, h2]
        rw [hstep, ih]
        constructor
        · intro hrest u hu
          rcases List.mem_cons.mp hu with rfl | hu'
          · intro _
            exact h2
          · exact hrest u hu'
        · intro h u hu
          exact h u (List.mem_cons_of_mem _ hu)
    · have hstep : check_availability resource_id start fim resource_type (t :: rest) =
          check_availability resource_id start fim resource_type rest := by
        simp [check_availability, h1]
      rw [hstep, ih]
      constructor
      · intro hrest u hu
        rcases List.mem_cons.mp hu with rfl | hu'
        · intro h1'
          exact absurd h1' h1
        · exact hrest u hu'
      · intro h u hu
        exact h u (List.mem_cons_of_mem _ hu)

lemma check_availability_eq_specFirstConflict (resource_id : String) (start fim : ℚ)
    (resource_type : String) (trips : List Trip) :
    check_availability resource_id start fim resource_type trips =
      specFirstConflict resource_id start fim resource_type trips := by
  induction trips with
  | nil => simp [check_availability, specFirstConflict]
  | cons t rest ih =>
    by_cases hc : conflictsWith resource_id start fim resource_type t
    · rw [specFirstConflict, List.find?_cons_of_pos _ (by simpa using hc)]
      simp [check_availability, hc.1, hc.2]
    · rw [specFirstConflict, List.find?_cons_of_neg _ (by simpa using hc)]
      rw [conflictsWith, not_and_or] at hc
      rcases hc with h1 | h2
      · simpa [check_availability, h1] using ih
      · by_cases h1 : tripResourceId resource_type t = resource_id
        · simpa [check_availability, h1, h2] using ih
        · simpa [check_availability, h1] using ih

lemma dias_necessarios_eq_max (d : ℚ) :
    dias_necessarios d = max 1 ⌈d / 70 / 8⌉ := by
  simp only [dias_necessarios]
  split_ifs with h <;> omega

lemma lookup_map_update {β : Type} (l : List (String × β)) (k : String) (f : β → β) :
    (l.map fun kv => if kv.1 = k then (kv.1, f kv.2) else kv).lookup k
      = (l.lookup k).map f := by
  induction l with
  | nil => rfl
  | cons kv rest ih =>
    obtain ⟨a, b⟩ := kv
    simp only [List.map_cons]
    by_cases h : a = k
    · rw [show ((if (a, b).1 = k then ((a, b).1, f (a, b).2) else (a, b)) : String × β)
          = (a, f b) from by rw [if_pos h]]
      subst h
      simp [List.lookup]
    · rw [show ((if (a, b).1 = k then ((a, b).1, f (a, b).2) else (a, b)) : String × β)
          = (a, b) from by rw [if_neg h]]
      have hbeq : (k == a) = false := beq_eq_false_iff_ne.mpr (Ne.symm h)
      simp [List.lookup, hbeq, ih]

lemma pairwise_append_singleton {R : Trip → Trip → Prop} {l : List Trip} {a : Trip}
    (h : l.Pairwise R) (ha : ∀ b ∈ l, R b a) : (l ++ [a]).Pairwise R := by
  rw [List.pairwise_append]
  refine ⟨h, List.pairwise_singleton R a, fun b hb c hc => ?_⟩
  rcases List.mem_singleton.mp hc with rfl
  exact ha b hb

lemma noDoubleBooking_step (trip : TripCreate) (fid : String) (s : State)
    (h : noDoubleBooking s.db_trips) :
    noDoubleBooking (book_trip trip fid s).fst.db_trips := by
  rcases hv : check_availability trip.veiculo_id trip.data_inicio (booking_data_fim trip)
      "veiculo" s.db_trips with _ | ⟨ts, te⟩
  · rcases hd : check_availability trip.motorista_id trip.data_inicio (booking_data_fim trip)
        "motorista" s.db_trips with _ | ⟨ts, te⟩
    · have hv' := (check_availability_eq_none_iff _ _ _ _ _).mp hv
      have hd' := (check_availability_eq_none_iff _ _ _ _ _).mp hd
      simp only [book_trip, hv, hd]
      constructor
      · refine pairwise_append_singleton h.1 fun b hb => ?_
        intro heq hover
        have hb' := hv' b hb (by simpa [tripResourceId, trip_record] using heq)
        exact hb' ⟨hover.2, hover.1⟩
      · refine pairwise_append_singleton h.2 fun b hb => ?_
        intro heq hover
        have hb' := hd' b hb (by simpa [tripResourceId, trip_record] using heq)
        exact hb' ⟨hover.2, hover.1⟩
    · simpa only [book_trip, hv, hd] using h
  · simpa only [book_trip, hv] using h

/-- C1: in every state reachable from an empty trip list by `book_trip`
calls, no two stored trips referencing the same vehicle id — and no two
referencing the same driver id — have overlapping `[start, end)` windows. -/
theorem booked_trips_never_overlap (s : State) (h : Reachable s) :
    noDoubleBooking s.db_trips := by
  induction h with
  | init trucks drivers => exact ⟨List.Pairwise.nil, List.Pairwise.nil⟩
  | step trip fid s hs ih => exact noDoubleBooking_step trip fid s ih

theorem booked_trips_never_overlap_witness :
    noDoubleBooking (book_trip demoBooking "t-001" initState).fst.db_trips :=
  booked_trips_never_overlap _
    (Reachable.step demoBooking "t-001" initState (Reachable.init db_trucks db_drivers))

/-- C2: `check_availability` reports a conflict iff some stored trip whose
resource id (vehicle or driver id, selected by `resource_type`) equals
`resource_id` satisfies the half-open overlap test
`start < t_end ∧ fim > t_start`; the conflict reported is the first
matching trip in storage (insertion) order (`specFirstConflict`); and a
window that merely touches a stored window at a boundary never conflicts. -/
theorem check_availability_overlap_semantics (resource_id : String) (start fim : ℚ)
    (resource_type : String) (trips : List Trip) :
    (check_availability resource_id start fim resource_type trips
        = specFirstConflict resource_id start fim resource_type trips)
    ∧ ((check_availability resource_id start fim resource_type trips).isSome ↔
        ∃ t ∈ trips, tripResourceId resource_type t = resource_id ∧
          start < t.data_fim ∧ fim > t.data_inicio)
    ∧ (∀ t : Trip, tripResourceId resource_type t = resource_id →
        start = t.data_fim ∨ fim = t.data_inicio →
        check_availability resource_id start fim resource_type [t] = none) := by
  refine ⟨check_availability_eq_specFirstConflict _ _ _ _ _, ?_, ?_⟩
  · rw [← Option.ne_none_iff_isSome, Ne, check_availability_eq_none_iff]
    push_neg
    constructor
    · rintro ⟨t, ht, h1, h2⟩
      exact ⟨t, ht, h1, h2⟩
    · rintro ⟨t, ht, h1, h2⟩
      exact ⟨t, ht, h1, h2⟩
  · intro t ht hb
    have hno : ¬ (start < t.data_fim ∧ fim > t.data_inicio) := by
      rcases hb with hb | hb
      · intro hc
        rw [hb] at hc
        exact lt_irrefl _ hc.1
      · intro hc
        rw [hb] at hc
        exact lt_irrefl _ hc.2
    simp [check_availability, ht, hno]

theorem check_availability_overlap_semantics_witness :
    check_availability "vuc-01" 2 4 "veiculo" [demoTripBoundary] = none ∧
    check_availability "vuc-01" 0 10 "veiculo" demoTrips
      = specFirstConflict "vuc-01" 0 10 "veiculo" demoTrips :=
  ⟨(check_availability_overlap_semantics "vuc-01" 2 4 "veiculo" [demoTripBoundary]).2.2
      demoTripBoundary rfl (Or.inl rfl),
   (check_availability_overlap_semantics "vuc-01" 0 10 "veiculo" demoTrips).1⟩

lemma lookup_map_agendado_truck (l : List (String × Truck)) (k : String) :
    (l.map fun kv =>
        if kv.1 = k then (kv.1, { kv.2 with status := "Agendado" }) else kv).lookup k
      = (l.lookup k).map fun v => { v with status := "Agendado" } := by
  exact lookup_map_update l k fun v => { v with status := "Agendado" }

lemma lookup_map_agendado_driver (l : List (String × Driver)) (k : String) :
    (l.map fun kv =>
        if kv.1 = k then (kv.1, { kv.2 with status := "Agendado" }) else kv).lookup k
      = (l.lookup k).map fun v => { v with status := "Agendado" } := by
  exact lookup_map_update l k fun v => { v with status := "Agendado" }

/-- C4: `book_trip` checks the vehicle first — a vehicle conflict is
reported (and the state left unchanged) whatever the driver check would
say; a driver conflict, checked only after the vehicle passes, is likewise
reported with the state unchanged; and only when both checks pass is the
trip appended and the status of both catalogued resources set to
`"Agendado"` (the "Booked" status of the spec). -/
theorem book_trip_check_order_and_atomicity (trip : TripCreate) (fid : String) (s : State) :
    (∀ ts te,
      check_availability trip.veiculo_id trip.data_inicio (booking_data_fim trip)
          "veiculo" s.db_trips = some (ts, te) →
      book_trip trip fid s = (s, .error (.conflict "veiculo" ts te)))
    ∧ (∀ ts te,
      check_availability trip.veiculo_id trip.data_inicio (booking_data_fim trip)
          "veiculo" s.db_trips = none →
      check_availability trip.motorista_id trip.data_inicio (booking_data_fim trip)
          "motorista" s.db_trips = some (ts, te) →
      book_trip trip fid s = (s, .error (.conflict "motorista" ts te)))
    ∧ (check_availability trip.veiculo_id trip.data_inicio (booking_data_fim trip)
          "veiculo" s.db_trips = none →
      check_availability trip.motorista_id trip.data_inicio (booking_data_fim trip)
          "motorista" s.db_trips = none →
      (book_trip trip fid s).snd
          = .ok { msg := "Viagem reservada!", id := fid,
                  termino_estimado := booking_data_fim trip }
      ∧ (book_trip trip fid s).fst.db_trips = s.db_trips ++ [trip_record trip fid]
      ∧ (∀ v, s.db_trucks.lookup trip.veiculo_id = some v →
          (book_trip trip fid s).fst.db_trucks.lookup trip.veiculo_id
            = some { v with status := "Agendado" })
      ∧ (∀ d, s.db_drivers.lookup trip.motorista_id = some d →
          (book_trip trip fid s).fst.db_drivers.lookup trip.motorista_id
            = some { d with status := "Agendado" })) := by
  refine ⟨?_, ?_, ?_⟩
  · intro ts te hv
    simp [book_trip, hv]
  · intro ts te hv hd
    simp [book_trip, hv, hd]
  · intro hv hd
    refine ⟨by simp [book_trip, hv, hd], by simp [book_trip, hv, hd], ?_, ?_⟩
    · intro v hvv
      have hsome : (s.db_trucks.lookup trip.veiculo_id).isSome = true := by
        rw [hvv]
        rfl
      simp only [book_trip, hv, hd, hsome, if_true]
      rw [lookup_map_agendado_truck, hvv]
      rfl
    · intro d hdd
      have hsome : (s.db_drivers.lookup trip.motorista_id).isSome = true := by
        rw [hdd]
        rfl
      simp only [book_trip, hv, hd, hsome, if_true]
      rw [lookup_map_agendado_driver, hdd]
      rfl

theorem book_trip_check_order_and_atomicity_witness :
    book_trip demoBooking2 "t-002" conflictState
      = (conflictState, .error (.conflict "veiculo" 5 7)) :=
  (book_trip_check_order_and_atomicity demoBooking2 "t-002" conflictState).1 5 7 (by
    have h1 : ⌈(5:ℚ)/7⌉ = 1 := by norm_num [Int.ceil_eq_iff]
    norm_num [check_availability, tripResourceId, conflictState, demoTripA, demoBooking2,
      demoBooking, booking_data_fim, dias_necessarios, h1])

/-- C5: a round-trip quote on distance `D` and hours `H` is exactly the
one-way quote on `2 * D` and `2 * H` — the doubling happens before the
trip-day, fuel-liter and refuel-stop derivations. -/
theorem quote_round_trip_doubling (st : Settings) (D H : ℚ) (veh : Truck)
    (po vo : Option ℚ) (g : Option (List (List ℚ))) (co cd : ℚ × ℚ) :
    quoteCore st D H true veh po vo g co cd
      = quoteCore st (2 * D) (2 * H) false veh po vo g co cd := by
  have h1 : D * 2 = 2 * D := mul_comm D 2
  have h2 : H * 2 = 2 * H := mul_comm H 2
  simp [quoteCore, h1, h2]

/-- C6: the refuel-stop count of a quote is `0` when
`fuelLiters = distanceKm / consumption` does not exceed the tank and
`ceil((fuelLiters - tank) / tank)` otherwise (`specRefuelStops`); with
tank 150, fuel liters 151, 300 and 301 give 1, 1 and 2 stops. -/
theorem quote_refuel_stops (st : Settings) (D H : ℚ) (veh : Truck)
    (po vo : Option ℚ) (g : Option (List (List ℚ))) (co cd : ℚ × ℚ)
    (_hc : 0 < veh.consumo) :
    ((quoteCore st D H false veh po vo g co cd).detalhes_financeiros.paradas_abastecimento
      = specRefuelStops (D / veh.consumo) veh.tanque)
    ∧ (quoteCore settings 151 1 false testTruck none none none
        (0, 0) (0, 0)).detalhes_financeiros.paradas_abastecimento = 1
    ∧ (quoteCore settings 300 1 false testTruck none none none
        (0, 0) (0, 0)).detalhes_financeiros.paradas_abastecimento = 1
    ∧ (quoteCore settings 301 1 false testTruck none none none
        (0, 0) (0, 0)).detalhes_financeiros.paradas_abastecimento = 2 := by
  refine ⟨?_, ?_, ?_, ?_⟩
  · rcases le_or_lt (D / veh.consumo) (veh.tanque : ℚ) with h | h
    · simp [quoteCore, specRefuelStops, h, not_lt.mpr h]
    · simp [quoteCore, specRefuelStops, h, not_le.mpr h]
  · have h1 : ⌈(1:ℚ)/150⌉ = 1 := by norm_num [Int.ceil_eq_iff]
    norm_num [quoteCore, testTruck, h1]
  · norm_num [quoteCore, testTruck]
  · have h1 : ⌈(151:ℚ)/150⌉ = 2 := by norm_num [Int.ceil_eq_iff]
    norm_num [quoteCore, testTruck, h1]

theorem quote_refuel_stops_witness :
    (quoteCore settings 100 1 false testTruck none none none
        (0, 0) (0, 0)).detalhes_financeiros.paradas_abastecimento
      = specRefuelStops (100 / testTruck.consumo) testTruck.tanque :=
  (quote_refuel_stops settings 100 1 testTruck none none none (0, 0) (0, 0)
    (by norm_num [testTruck])).1

/-- C7: a quote's trip days equal `max 1 ⌈travelHours / 8⌉` (hours 1/2, 8,
81/10 and 16 give 1, 1, 2 and 2 days); and a booking derives its window by
`travelHours = distanceKm / 70`, `tripDays = max 1 ⌈travelHours / 8⌉` and
`proposedEnd = proposedStart + tripDays` days, which is the
`termino_estimado` returned on success. -/
theorem trip_days_derivation (st : Settings) (D H : ℚ) (veh : Truck)
    (po vo : Option ℚ) (g : Option (List (List ℚ))) (co cd : ℚ × ℚ)
    (trip : TripCreate) (fid : String) (s : State) :
    ((quoteCore st D H false veh po vo g co cd).dias_viagem_estimados = max 1 ⌈H / 8⌉)
    ∧ (dias_necessarios trip.distancia_km = max 1 ⌈trip.distancia_km / 70 / 8⌉)
    ∧ (booking_data_fim trip
        = trip.data_inicio + ((max 1 ⌈trip.distancia_km / 70 / 8⌉ : ℤ) : ℚ))
    ∧ (∀ r, (book_trip trip fid s).snd = .ok r →
        r.termino_estimado = booking_data_fim trip)
    ∧ (quoteCore st D (1/2) false veh po vo g co cd).dias_viagem_estimados = 1
    ∧ (quoteCore st D 8 false veh po vo g co cd).dias_viagem_estimados = 1
    ∧ (quoteCore st D (81/10) false veh po vo g co cd).dias_viagem_estimados = 2
    ∧ (quoteCore st D 16 false veh po vo g co cd).dias_viagem_estimados = 2 := by
  refine ⟨by simp [quoteCore], dias_necessarios_eq_max _, ?_, ?_, ?_, ?_, ?_, ?_⟩
  · rw [booking_data_fim, dias_necessarios_eq_max]
  · intro r hr
    rcases hv : check_availability trip.veiculo_id trip.data_inicio (booking_data_fim trip)
        "veiculo" s.db_trips with _ | ⟨ts, te⟩
    · rcases hd : check_availability trip.motorista_id trip.data_inicio (booking_data_fim trip)
          "motorista" s.db_trips with _ | ⟨ts, te⟩
      · simp only [book_trip, hv, hd, Except.ok.injEq] at hr
        rw [← hr]
      · simp [book_trip, hv, hd] at hr
    · simp [book_trip, hv] at hr
  · have h1 : ⌈(1:ℚ)/16⌉ = 1 := by norm_num [Int.ceil_eq_iff]
    norm_num [quoteCore, h1]
  · norm_num [quoteCore]
  · have h1 : ⌈(81:ℚ)/80⌉ = 2 := by norm_num [Int.ceil_eq_iff]
    norm_num [quoteCore, h1]
  · norm_num [quoteCore]

theorem trip_days_derivation_witness :
    ({ msg := "Viagem reservada!", id := "t-001",
        termino_estimado := 20001 } : BookResponse).termino_estimado
      = booking_data_fim demoBooking :=
  (trip_days_derivation settings 0 0 testTruck none none none (0, 0) (0, 0)
      demoBooking "t-001" initState).2.2.2.1
    { msg := "Viagem reservada!", id := "t-001", termino_estimado := 20001 }
    (by
      have h1 : ⌈(5:ℚ)/7⌉ = 1 := by norm_num [Int.ceil_eq_iff]
      norm_num [book_trip, check_availability, initState, demoBooking, booking_data_fim,
        dias_necessarios, h1])

/-- C3 (code bug): the quote computation has no guard on the margin
fraction — with `MARGEM_LUCRO = 3/2 ≥ 1` the request succeeds (no
InvalidConfiguration or any other error is raised), the sale-price
division by `1 - 3/2 < 0` is performed, and the returned final price is
the negative amount `-200`. -/
theorem margin_ge_one_division_performed :
    calculate_quote badSettings [("test-01", testTruck)] (fun _ => some (0, 0))
        (fun _ _ => some { dist_km := 100, duration_h := 1, geometry := [] })
        (fun _ _ => 0) demoPayload
      = .ok (quoteCore badSettings 100 1 false testTruck none none (some []) (0, 0) (0, 0))
    ∧ (quoteCore badSettings 100 1 false testTruck none none
        (some []) (0, 0) (0, 0)).preco_final_frete = -200
    ∧ badSettings.MARGEM_LUCRO ≥ 1 := by
  refine ⟨rfl, ?_, by norm_num [badSettings]⟩
  norm_num [quoteCore, badSettings, testTruck, pyRound, roundHalfEven]

/-- C8 counterexample: the claim says a provided fuel-price override of 0
is used, which would make the fuel cost of a 100 km quote on `testTruck`
equal `pyRound (100 * 0) 2 = 0`; the code instead falls back to the
default price 6.89 and returns a fuel cost of 689. -/
theorem fuel_override_zero_ignored_cex :
    (quoteCore settings 100 1 false testTruck (some 0) none none
        (0, 0) (0, 0)).detalhes_financeiros.custo_combustivel = 689
    ∧ pyRound (100 / testTruck.consumo * 0) 2 = 0
    ∧ (689 : ℚ) ≠ 0 := by
  refine ⟨?_, ?_, by norm_num⟩
  · norm_num [quoteCore, settings, testTruck, pyRound, roundHalfEven]
  · norm_num [testTruck, pyRound, roundHalfEven]

/-- C8 (amended): the fuel price used is the override when provided and
nonzero and the default otherwise — a zero override falls back to the
default, because line 321 uses the Python `or` idiom and `0.0` is falsy —
while the per-diem rate used is the override whenever one is provided,
including 0 (line 322 tests `is not None`). -/
theorem quote_override_semantics (st : Settings) (D H : ℚ) (ida : Bool) (veh : Truck)
    (po vo : Option ℚ) (g : Option (List (List ℚ))) (co cd : ℚ × ℚ) :
    ((quoteCore st D H ida veh po vo g co cd).detalhes_financeiros.custo_combustivel
      = pyRound ((if ida then D * 2 else D) / veh.consumo
          * specFuelPrice po st.PRECO_COMBUSTIVEL) 2)
    ∧ ((quoteCore st D H ida veh po vo g co cd).detalhes_financeiros.custo_motorista_diarias
      = pyRound (specPerDiem vo st.VALOR_DIARIA_PADRAO
          * ((max 1 ⌈(if ida then H * 2 else H) / 8⌉ : ℤ) : ℚ)) 2)
    ∧ (quoteCore settings 100 1 false testTruck none (some 0) none
        (0, 0) (0, 0)).detalhes_financeiros.custo_motorista_diarias = 0 := by
  refine ⟨?_, ?_, ?_⟩
  · rcases po with _ | p
    · simp [quoteCore, specFuelPrice]
    · by_cases hp : p = 0 <;> simp [quoteCore, specFuelPrice, hp]
  · rcases vo with _ | v <;> simp [quoteCore, specPerDiem]
  · norm_num [quoteCore, settings, testTruck, pyRound, roundHalfEven]

/-- C9 counterexample: a quote for a vehicle id absent from the catalog
fails with HTTP status 400, not with the 404 of a NotFound failure. -/
theorem quote_unknown_vehicle_not_notfound_cex :
    exceptStatus (calculate_quote settings [] (fun _ => some (0, 0))
        (fun _ _ => none) (fun _ _ => 0) demoPayload) = some 400
    ∧ some 400 ≠ some (404 : ℕ) := by
  refine ⟨rfl, by norm_num⟩

/-- C9 (amended): an unknown vehicle id fails with HTTP 400
`"Veículo não encontrado."`; an unresolvable origin or destination makes
the geo service raise a 404 naming the place, but the blanket
`except Exception` of the quote endpoint re-raises it as HTTP 500 whose
detail string still names the offending place. -/
theorem quote_error_statuses (st : Settings) (trucks : List (String × Truck))
    (geocode : String → Option (ℚ × ℚ)) (road_route : ℚ × ℚ → ℚ × ℚ → Option RouteData)
    (great_circle_km : ℚ × ℚ → ℚ × ℚ → ℚ) (payload : RouteRequest) :
    (trucks.lookup payload.veiculo_id = none →
      calculate_quote st trucks geocode road_route great_circle_km payload
        = .error (.http 400 "Veículo não encontrado."))
    ∧ (∀ veh, trucks.lookup payload.veiculo_id = some veh →
      geocode payload.origem = none →
      calculate_quote st trucks geocode road_route great_circle_km payload
        = .error (.http 500 ("404: Localização não encontrada: " ++ payload.origem)))
    ∧ (∀ veh co, trucks.lookup payload.veiculo_id = some veh →
      geocode payload.origem = some co → geocode payload.destino = none →
      calculate_quote st trucks geocode road_route great_circle_km payload
        = .error (.http 500 ("404: Localização não encontrada: " ++ payload.destino))) := by
  refine ⟨?_, ?_, ?_⟩
  · intro h
    simp [calculate_quote, h]
  · intro veh h1 h2
    simp only [calculate_quote, h1, h2, strOfHTTPException]
    rw [← String.append_assoc]
    rfl
  · intro veh co h1 h2 h3
    simp only [calculate_quote, h1, h2, h3, strOfHTTPException]
    rw [← String.append_assoc]
    rfl

theorem quote_error_statuses_witness :
    calculate_quote settings [] (fun _ => some (0, 0)) (fun _ _ => none)
        (fun _ _ => 0) demoPayload
      = .error (.http 400 "Veículo não encontrado.") :=
  (quote_error_statuses settings [] (fun _ => some (0, 0)) (fun _ _ => none)
      (fun _ _ => 0) demoPayload).1 rfl

/-- C10: `book_trip` never validates that its ids exist — when the vehicle
and driver ids are in no catalog and both availability checks pass, the
booking succeeds (no NotFound is raised), the trip is appended, and both
status-flip writes are silently skipped. -/
theorem book_trip_skips_existence_validation (trip : TripCreate) (fid : String) (s : State)
    (hv : s.db_trucks.lookup trip.veiculo_id = none)
    (hd : s.db_drivers.lookup trip.motorista_id = none)
    (hcv : check_availability trip.veiculo_id trip.data_inicio (booking_data_fim trip)
        "veiculo" s.db_trips = none)
    (hcd : check_availability trip.motorista_id trip.data_inicio (booking_data_fim trip)
        "motorista" s.db_trips = none) :
    (book_trip trip fid s).snd
        = .ok { msg := "Viagem reservada!", id := fid,
                termino_estimado := booking_data_fim trip }
    ∧ (book_trip trip fid s).fst.db_trips = s.db_trips ++ [trip_record trip fid]
    ∧ (book_trip trip fid s).fst.db_trucks = s.db_trucks
    ∧ (book_trip trip fid s).fst.db_drivers = s.db_drivers := by
  have hv' : (s.db_trucks.lookup trip.veiculo_id).isSome = false := by
    rw [hv]
    rfl
  have hd' : (s.db_drivers.lookup trip.motorista_id).isSome = false := by
    rw [hd]
    rfl
  refine ⟨?_, ?_, ?_, ?_⟩ <;> simp [book_trip, hcv, hcd, hv', hd']

theorem book_trip_skips_existence_validation_witness :
    (book_trip ghostBooking "t-009" initState).snd
        = .ok { msg := "Viagem reservada!", id := "t-009",
                termino_estimado := booking_data_fim ghostBooking }
    ∧ (book_trip ghostBooking "t-009" initState).fst.db_trips
        = initState.db_trips ++ [trip_record ghostBooking "t-009"]
    ∧ (book_trip ghostBooking "t-009" initState).fst.db_trucks = initState.db_trucks
    ∧ (book_trip ghostBooking "t-009" initState).fst.db_drivers = initState.db_drivers :=
  book_trip_skips_existence_validation ghostBooking "t-009" initState rfl rfl rfl rfl
